import Mathlib

/-!
Shallow embedding of the scan orchestration core of
`src/aggregator/app.py` (IT Automated Health Check Tool), together with
proofs about the scorer, the scan pipeline, the job-runner state machine,
the history ring buffer and the data endpoint fallback.

Machine reals (Python floats such as `psutil` percent values) are modelled
as rationals; Python dicts with optionally-present keys are modelled as
structures with `Option` fields; Python calls that can raise are modelled
as `Except String` values supplied by a telemetry environment `Env`.
-/

namespace HealthCheck

/-- One remediation hint emitted by `analyze` (a dict with `title` and
`action` in the source). -/
structure Remediation where
  title : String
  action : String
deriving DecidableEq, Repr

/-- Per-disk record built by the disks stage of `scan_partial`:
mount point, device, capacities in GB and the usage percent reported by
`psutil.disk_usage`. -/
structure DiskInfo where
  mount : String
  device : String
  total_gb : ℚ
  used_gb : ℚ
  free_gb : ℚ
  percent : ℚ
deriving DecidableEq, Repr

/-- One row of the `top_processes` list built by `scan_partial`. -/
structure ProcInfo where
  pid : Int
  name : String
  cpu : ℚ
  mem_mb : ℚ
deriving DecidableEq, Repr

/-- A listening-socket row built by the socket stage of `scan_full`.
The source dict key `local` is a Lean keyword, hence `local_addr`. -/
structure ListenEntry where
  pid : Option Int
  local_addr : String
deriving DecidableEq, Repr

/-- An established-connection row built by the socket stage of
`scan_full`. -/
structure ConnInfo where
  pid : Option Int
  laddr : String
  raddr : String
  status : String
deriving DecidableEq, Repr

/-- One entry of `services_snapshot`: on Windows a service name/status
pair from `psutil.win_service_iter`, otherwise a pid/name pair of a
process whose name mentions systemd. -/
inductive ServiceEntry where
  | win (name : String) (status : String)
  | proc (pid : Int) (name : Option String)
deriving DecidableEq, Repr

/-- The Report dict assembled by the scan pipeline.  A key that the
pipeline has not (yet) set is `none`. -/
structure Report where
  host : Option String
  platform : Option String
  timestamp : Option String
  ip : Option String
  cpu_percent : Option ℚ
  memory_percent : Option ℚ
  disks : Option (List DiskInfo)
  top_processes : Option (List ProcInfo)
  network_online : Option Bool
  listening : Option (List ListenEntry)
  connections : Option (List ConnInfo)
  services_snapshot : Option (List ServiceEntry)
  logs_snippet : Option String
  score : Option Int
  remediations : Option (List Remediation)
deriving DecidableEq, Repr

/-- The empty dict `{}` before any stage has written a key. -/
def Report.empty : Report :=
  { host := none, platform := none, timestamp := none, ip := none,
    cpu_percent := none, memory_percent := none, disks := none,
    top_processes := none, network_online := none, listening := none,
    connections := none, services_snapshot := none, logs_snippet := none,
    score := none, remediations := none }

/-! ## Scorer (`analyze` in the source)

`analyze` reads `rep.get('cpu_percent') or 0`, `rep.get('memory_percent')
or 0`, `rep.get('disks', [])` and `rep.get('network_online', True)`,
subtracts a deduction per unhealthy signal from 100, clamps at 0 with
`max(0, score)` and collects one remediation per deduction, in source
statement order (CPU, memory, each disk in list order, network).
`x or 0` maps an absent or `None` value to `0`, which `Option.getD 0`
mirrors (a numeric `0.0` is also sent to `0` by Python `or`, which is the
identity on the value). -/

/-- CPU deduction of `analyze`: `cpu >= 90` costs 40, else `cpu >= 75`
costs 15. -/
def cpu_deduction (cpu : ℚ) : Int :=
  if cpu ≥ 90 then 40 else if cpu ≥ 75 then 15 else 0

/-- Remediations appended by the CPU branch of `analyze`. -/
def cpu_rems (cpu : ℚ) : List Remediation :=
  if cpu ≥ 90 then
    [{ title := "High CPU",
       action := "Check top processes, consider stopping or reconfiguring heavy services." }]
  else if cpu ≥ 75 then
    [{ title := "Elevated CPU", action := "Investigate processes with high CPU." }]
  else []

/-- Memory deduction of `analyze`: `mem >= 95` costs 35, else `mem >= 85`
costs 12. -/
def mem_deduction (mem : ℚ) : Int :=
  if mem ≥ 95 then 35 else if mem ≥ 85 then 12 else 0

/-- Remediations appended by the memory branch of `analyze`. -/
def mem_rems (mem : ℚ) : List Remediation :=
  if mem ≥ 95 then
    [{ title := "Low available memory",
       action := "Restart high memory processes or add memory." }]
  else if mem ≥ 85 then
    [{ title := "High memory usage",
       action := "Investigate memory-hungry processes." }]
  else []

/-- Per-disk deduction of `analyze`: percent `>= 95` costs 35, else
`>= 90` costs 12; applied once per disk in the list. -/
def disk_deduction (d : DiskInfo) : Int :=
  if d.percent ≥ 95 then 35 else if d.percent ≥ 90 then 12 else 0

/-- Remediations appended by the per-disk branch of `analyze`. -/
def disk_rems (d : DiskInfo) : List Remediation :=
  if d.percent ≥ 95 then
    [{ title := "Disk " ++ d.mount ++ " nearly full",
       action := "Clean temp files, rotate logs, or extend volume." }]
  else if d.percent ≥ 90 then
    [{ title := "Disk " ++ d.mount ++ " high usage",
       action := "Investigate large files." }]
  else []

/-- Network deduction of `analyze`: `not rep.get('network_online', True)`
costs 25. -/
def net_deduction (online : Bool) : Int :=
  if online then 0 else 25

/-- Remediation appended by the network branch of `analyze`. -/
def net_rems (online : Bool) : List Remediation :=
  if online then []
  else [{ title := "Network offline",
          action := "Check cable/router/Wi-Fi settings." }]

/-- Sum of all deductions `analyze` subtracts from the initial 100. -/
def total_deduction (rep : Report) : Int :=
  cpu_deduction (rep.cpu_percent.getD 0)
    + mem_deduction (rep.memory_percent.getD 0)
    + ((rep.disks.getD []).map disk_deduction).sum
    + net_deduction (rep.network_online.getD true)

/-- The score `analyze` stores: `max(0, 100 - deductions)`. -/
def score_val (rep : Report) : Int :=
  max 0 (100 - total_deduction rep)

/-- The remediation list `analyze` stores, in source append order:
CPU branch, memory branch, one entry per qualifying disk in list order,
network branch. -/
def remediations_of (rep : Report) : List Remediation :=
  cpu_rems (rep.cpu_percent.getD 0)
    ++ mem_rems (rep.memory_percent.getD 0)
    ++ ((rep.disks.getD []).map disk_rems).flatten
    ++ net_rems (rep.network_online.getD true)

/-- The scorer `analyze`: writes `score` and `remediations` into the
report and leaves every other key unchanged.  The `try/except` around the
body of the source function can only fire on dynamically ill-typed
reports, which the typed model excludes. -/
def analyze (rep : Report) : Report :=
  { rep with score := some (score_val rep),
             remediations := some (remediations_of rep) }

/-! ## Telemetry environment

Each `psutil` / `socket` / `os` query the pipeline makes is a field of
`Env`; a call that the Python runtime could answer with an exception is an
`Except String` value (the string standing for the exception message). -/

/-- One address record of `psutil.net_if_addrs` (family plus address). -/
structure NetAddr where
  family : Nat
  address : String
deriving DecidableEq, Repr

/-- The numeric value of `socket.AF_INET`. -/
def AF_INET : Nat := 2

/-- One entry of `psutil.disk_partitions(all=False)`. -/
structure DiskPartition where
  device : String
  mountpoint : String
  fstype : String
deriving DecidableEq, Repr

/-- The result of `psutil.disk_usage` for one mount: byte counts and the
usage percent. -/
structure DiskUsage where
  total : ℚ
  used : ℚ
  free : ℚ
  percent : ℚ
deriving DecidableEq, Repr

/-- One entry yielded by
`psutil.process_iter(['pid','name','cpu_percent','memory_info'])`:
the preloaded `info` dict.  `cpu_percent` and the `rss` of `memory_info`
can be `None`, mirrored by `Option`. -/
structure ProcEntry where
  pid : Int
  name : String
  cpu_percent : Option ℚ
  rss : Option ℚ
deriving DecidableEq, Repr

/-- An ip/port pair of a `psutil` connection address. -/
structure AddrPair where
  ip : String
  port : Nat
deriving DecidableEq, Repr

/-- One entry of `psutil.net_connections(kind='inet')`. -/
structure ConnEntry where
  pid : Option Int
  laddr : Option AddrPair
  raddr : Option AddrPair
  status : String
deriving DecidableEq, Repr

/-- The value of `psutil.CONN_LISTEN`. -/
def CONN_LISTEN : String := "LISTEN"

/-- One entry of `psutil.win_service_iter` (name and status). -/
structure WinService where
  name : String
  status : String
deriving DecidableEq, Repr

/-- One entry of the `psutil.process_iter(['pid','name'])` call made by
the service-snapshot stage; the `name` can be `None`. -/
structure NamedProc where
  pid : Int
  name : Option String
deriving DecidableEq, Repr

/-- The telemetry capability interface: every point-in-time OS query the
pipeline performs, with `Except` marking the calls whose failure the
source handles (or fails to handle). -/
structure Env where
  gethostname : String
  platform_string : String
  now_iso : String
  net_if_addrs : Except String (List (String × List NetAddr))
  cpu_percent : Except String ℚ
  virtual_memory_percent : Except String ℚ
  disk_partitions : Except String (List DiskPartition)
  disk_usage : String → Except String DiskUsage
  process_entries : Except String (List ProcEntry)
  connect_ok : Bool
  net_connections : Except String (List ConnEntry)
  system_name : String
  win_services : Except String (List WinService)
  service_process_entries : Except String (List NamedProc)
  path_exists : String → Bool
  read_lines : String → Except String (List String)

/-! ## Scan pipeline -/

/-- The nine collection stages, in the order the source executes them:
`scan_partial` runs `basic`, `cpu`, `memory`, `disks`, `procs`, `network`;
`scan_full` runs those and then `sockets`, `services`, `logs`. -/
inductive Stage where
  | basic | cpu | memory | disks | procs | network
  | sockets | services | logs
deriving DecidableEq, Repr

/-- The stage blocks of `scan_partial`, in source order (the network
probe runs after the top-processes block). -/
def quick_stage_list : List Stage :=
  [Stage.basic, Stage.cpu, Stage.memory, Stage.disks, Stage.procs,
   Stage.network]

/-- The extra stage blocks `scan_full` appends after `scan_partial`. -/
def deep_extra_stages : List Stage :=
  [Stage.sockets, Stage.services, Stage.logs]

/-- Python `round(x, 2)` on the float quantities the pipeline stores
(GB and MB figures), approximated by rational truncation to two decimal
places; the claims never inspect these fields. -/
def round2 (x : ℚ) : ℚ :=
  ((x * 100).floor : ℚ) / 100

/-- The ip loop of `gather_basic`: the first address over all interfaces
whose family is `AF_INET` and that does not start with `127.`; the
sentinel `N/A` when none is found. -/
def primary_ip (addrs : List (String × List NetAddr)) : String :=
  match (addrs.map Prod.snd).flatten.find?
      (fun a => a.family == AF_INET && !(a.address.startsWith "127.")) with
  | some a => a.address
  | none => "N/A"

/-- `gather_basic`: hostname, platform string, timestamp and primary ip
(the `net_if_addrs` call is wrapped, so its failure leaves ip `N/A`). -/
def gather_basic (env : Env) : Report :=
  let ip : String :=
    match env.net_if_addrs with
    | Except.error _ => "N/A"
    | Except.ok addrs => primary_ip addrs
  { Report.empty with
    host := some env.gethostname,
    platform := some env.platform_string,
    timestamp := some env.now_iso,
    ip := some ip }

/-- `quick_cpu_sample`: the one-second blocking cpu sample; a failure is
caught and yields `None`. -/
def quick_cpu_sample (env : Env) : Option ℚ :=
  match env.cpu_percent with
  | Except.ok v => some v
  | Except.error _ => none

/-- The disks stage of `scan_partial`: skip partitions with an empty
`fstype`, skip a partition whose `disk_usage` call raises, and keep `[]`
when the `disk_partitions` call itself raises (the outer `try` catches
before anything is appended). -/
def disks_of (env : Env) : List DiskInfo :=
  match env.disk_partitions with
  | Except.error _ => []
  | Except.ok parts =>
    parts.filterMap (fun p =>
      if p.fstype = "" then none
      else
        match env.disk_usage p.mountpoint with
        | Except.error _ => none
        | Except.ok du =>
          some { mount := p.mountpoint, device := p.device,
                 total_gb := round2 (du.total / 1000000000),
                 used_gb := round2 (du.used / 1000000000),
                 free_gb := round2 (du.free / 1000000000),
                 percent := du.percent })

/-- One output row of the top-processes stage:
`p.info.get('cpu_percent', 0)` and
`getattr(p.info.get('memory_info', None), 'rss', 0) / 1024 / 1024`. -/
def proc_row (p : ProcEntry) : ProcInfo :=
  { pid := p.pid, name := p.name, cpu := p.cpu_percent.getD 0,
    mem_mb := round2 (p.rss.getD 0 / 1024 / 1024) }

/-- The top-processes stage of `scan_partial`: all process rows sorted by
cpu descending (Python `sorted` with `reverse=True` is stable, as is
`mergeSort`), truncated to the top 8; `[]` when the `process_iter` call
raises. -/
def top_processes_of (env : Env) : List ProcInfo :=
  match env.process_entries with
  | Except.error _ => []
  | Except.ok ps =>
    ((ps.map proc_row).mergeSort (fun a b => b.cpu ≤ a.cpu)).take 8

/-- `scan_partial` (named `scanPartial` here): the six quick stages in
source order, then `analyze`.  The `psutil.virtual_memory()` call is the
one telemetry call of this function the source does not wrap in a `try`,
so its failure propagates as `Except.error`.  The second component is
the trace of stage blocks executed, standing for the per-stage log lines
emitted through `log`. -/
def scanPartial (env : Env) : Except String (Report × List Stage) :=
  let rep := gather_basic env
  let rep := { rep with cpu_percent := quick_cpu_sample env }
  match env.virtual_memory_percent with
  | Except.error e => Except.error e
  | Except.ok vm =>
    let rep := { rep with memory_percent := some vm }
    let rep := { rep with disks := some (disks_of env) }
    let rep := { rep with top_processes := some (top_processes_of env) }
    let rep := { rep with network_online := some env.connect_ok }
    Except.ok (analyze rep, quick_stage_list)

/-- Formatting of a connection address in the socket stage:
`f"{ip}:{port}"` when present, the empty string otherwise. -/
def fmt_addr (a : Option AddrPair) : String :=
  match a with
  | none => ""
  | some a => a.ip ++ ":" ++ toString a.port

/-- The socket stage of `scan_full`: partition `net_connections` into
listening and established rows; a failing call leaves both keys absent. -/
def socket_stage (env : Env) (rep : Report) : Report :=
  match env.net_connections with
  | Except.error _ => rep
  | Except.ok conns =>
    let listening : List ListenEntry :=
      conns.filterMap (fun c =>
        if c.status = CONN_LISTEN then
          some { pid := c.pid, local_addr := fmt_addr c.laddr }
        else none)
    let established : List ConnInfo :=
      conns.filterMap (fun c =>
        if c.status = CONN_LISTEN then none
        else some { pid := c.pid, laddr := fmt_addr c.laddr,
                    raddr := fmt_addr c.raddr, status := c.status })
    { rep with
      listening := some listening,
      connections := some established }

/-- `platform.system().lower().startswith("windows")`. -/
def is_windows (env : Env) : Bool :=
  env.system_name.toLower.startsWith "windows"

/-- Substring test used for `'systemd' in name` (Python `in` on
strings): `s.splitOn sub` has at least two parts exactly when `sub`
occurs in `s` (for a nonempty `sub`). -/
def contains_sub (sub s : String) : Bool :=
  (s.splitOn sub).length ≥ 2

/-- The service-snapshot stage of `scan_full`: Windows services from
`win_service_iter`, otherwise processes whose lowercased name contains
`systemd`; a failing call leaves the key absent. -/
def service_stage (env : Env) (rep : Report) : Report :=
  if is_windows env then
    match env.win_services with
    | Except.error _ => rep
    | Except.ok svcs =>
      let entries := svcs.map (fun s => ServiceEntry.win s.name s.status)
      { rep with services_snapshot := some entries }
  else
    match env.service_process_entries with
    | Except.error _ => rep
    | Except.ok ps =>
      let entries := ps.filterMap (fun p =>
        if contains_sub "systemd" ((p.name.getD "").toLower) then
          some (ServiceEntry.proc p.pid p.name)
        else none)
      { rep with services_snapshot := some entries }

/-- The log path candidates of the log-tail stage. -/
def log_candidates : List String :=
  ["/var/log/syslog", "/var/log/messages", "/var/log/system.log"]

/-- The candidate loop of the log-tail stage: the joined last 300 lines
of the first candidate that exists and reads successfully; a candidate
whose read raises is skipped; the empty string when none qualifies. -/
def first_log_snippet (env : Env) : List String → String
  | [] => ""
  | p :: rest =>
    if env.path_exists p then
      match env.read_lines p with
      | Except.ok lines =>
        String.join (lines.drop (lines.length - 300))
      | Except.error _ => first_log_snippet env rest
    else first_log_snippet env rest

/-- The log-tail stage of `scan_full`: a fixed sentinel on Windows,
otherwise the first readable candidate snippet, with an empty snippet
replaced by the no-log sentinel. -/
def logs_stage (env : Env) (rep : Report) : Report :=
  if is_windows env then
    let s := "Event log extraction not enabled (pywin32 required for deep event logs)."
    { rep with logs_snippet := some s }
  else
    let snippet := first_log_snippet env log_candidates
    let s := if snippet = "" then "No readable system log available." else snippet
    { rep with logs_snippet := some s }

/-- `scan_full`: runs `scan_partial`, then the three deep stages, then
`analyze` again (the second `analyze` recomputes score and remediations
from the same raw fields). -/
def scan_full (env : Env) : Except String (Report × List Stage) :=
  match scanPartial env with
  | Except.error e => Except.error e
  | Except.ok (rep, trace) =>
    let rep := socket_stage env rep
    let rep := service_stage env rep
    let rep := logs_stage env rep
    Except.ok (analyze rep, trace ++ deep_extra_stages)

/-- The mode dispatch of `scan_worker`:
`scan_partial() if mode == 'partial' else scan_full()`. -/
def scanFor (mode : String) (env : Env) :
    Except String (Report × List Stage) :=
  if mode = "partial" then scanPartial env else scan_full env

/-! ## Job runner state machine, history buffer, data endpoint -/

/-- The mutable `_state` dict: busy flag, mode and start time of the
in-flight scan (the `latest` pointer is modelled separately by the
`data_route` arguments). -/
structure ScanState where
  running : Bool
  mode : Option String
  start_time : Option String
deriving DecidableEq, Repr

/-- The idle state: the fields `scan_worker` restores in its `finally`
block. -/
def idle_state : ScanState :=
  { running := false, mode := none, start_time := none }

/-- The in-flight state `scan_worker` sets under the lock on entry. -/
def running_state (mode : String) (t : String) : ScanState :=
  { running := true, mode := some mode, start_time := some t }

/-- The body a `start-scan` request returns: the busy rejection or the
started acknowledgement echoing the mode string. -/
inductive StartResponse where
  | busy
  | started (mode : String)
deriving DecidableEq, Repr

/-- Everything a `start-scan` request does: the response body, the
`_state` fields as the request leaves them (the request itself never
writes them), and the mode handed to a freshly spawned `scan_worker`
thread, when one was spawned. -/
structure StartOutcome where
  response : StartResponse
  state : ScanState
  spawned : Option String
deriving DecidableEq, Repr

/-- The `start_scan` route: reject with busy while `_state['running']`,
otherwise read `mode` from the request body with default `full` and
spawn `scan_worker(mode)`.  `req_mode` is `none` when the body is absent
or has no `mode` key. -/
def start_scan (st : ScanState) (req_mode : Option String) : StartOutcome :=
  if st.running then
    { response := StartResponse.busy, state := st, spawned := none }
  else
    let mode := req_mode.getD "full"
    { response := StartResponse.started mode, state := st,
      spawned := some mode }

/-- A disk summary stored in a history entry:
`{"mount": d.get('mount'), "percent": d.get('percent')}`. -/
structure DiskSummary where
  mount : String
  percent : ℚ
deriving DecidableEq, Repr

/-- One entry of `scan_history.json`, as `scan_worker` builds it with
`rep.get(...)` lookups (absent report keys become `None`). -/
structure HistoryEntry where
  time : Option String
  host : Option String
  score : Option Int
  cpu : Option ℚ
  memory : Option ℚ
  disks : Option (List DiskSummary)
deriving DecidableEq, Repr

/-- `append_history`: append the entry and keep the last `max_items = 8`
(`h[-max_items:]`) when the list has grown beyond the bound. -/
def append_history (h : List HistoryEntry) (entry : HistoryEntry) :
    List HistoryEntry :=
  let max_items := 8
  let h := h ++ [entry]
  if h.length > max_items then h.drop (h.length - max_items) else h

/-- The history entry `scan_worker` appends for a completed report;
`now` is the `datetime.now().isoformat()` default used when the report
has no timestamp. -/
def history_entry_of (rep : Report) (now : String) : HistoryEntry :=
  { time := some (rep.timestamp.getD now),
    host := rep.host,
    score := rep.score,
    cpu := rep.cpu_percent,
    memory := rep.memory_percent,
    disks := some ((rep.disks.getD []).map
      (fun d => { mount := d.mount, percent := d.percent })) }

/-- What one `scan_worker` run leaves behind: the persisted report (none
when the pipeline raised), the history after the append, and the final
`_state` (always idle again, restored in the `finally` block). -/
structure WorkerResult where
  saved : Option Report
  history : List HistoryEntry
  final : ScanState
deriving DecidableEq, Repr

/-- `scan_worker`: dispatch on the mode string, persist the report and
append a history entry on success, swallow a pipeline error with a log
line, and restore the idle state either way. -/
def scan_worker (mode : String) (env : Env) (hist : List HistoryEntry) :
    WorkerResult :=
  match scanFor mode env with
  | Except.ok (rep, _) =>
    { saved := some rep,
      history := append_history hist (history_entry_of rep env.now_iso),
      final := idle_state }
  | Except.error _ =>
    { saved := none, history := hist, final := idle_state }

/-- The fallback object the `data` route builds from the newest history
entry, with its hardcoded `network_online: True` and
`remediations: []`. -/
structure FallbackData where
  host : Option String
  timestamp : Option String
  score : Option Int
  cpu_percent : Option ℚ
  memory_percent : Option ℚ
  disks : Option (List DiskSummary)
  network_online : Bool
  remediations : List Remediation
deriving DecidableEq, Repr

/-- The three shapes the `data` route can answer with: the latest saved
report, the fallback object, or the empty dict. -/
inductive DataResponse where
  | report (r : Report)
  | fallback (f : FallbackData)
  | empty
deriving DecidableEq, Repr

/-- The `data` route: the latest saved report when its file is present
and readable (`latest = some r`), otherwise the fallback built from the
last history entry, otherwise `{}`. -/
def data_route (latest : Option Report) (history : List HistoryEntry) :
    DataResponse :=
  match latest with
  | some r => DataResponse.report r
  | none =>
    match history.getLast? with
    | some last =>
      DataResponse.fallback
        { host := last.host, timestamp := last.time, score := last.score,
          cpu_percent := last.cpu, memory_percent := last.memory,
          disks := last.disks, network_online := true, remediations := [] }
    | none => DataResponse.empty

/-! ## Concrete inputs used by counterexamples and witnesses -/

/-- A benign concrete telemetry environment on which every capability
answers and every answer is small. -/
def sampleEnv : Env :=
  { gethostname := "host1",
    platform_string := "Linux-6.1",
    now_iso := "2026-01-01T00:00:00",
    net_if_addrs := Except.ok [],
    cpu_percent := Except.ok 10,
    virtual_memory_percent := Except.ok 40,
    disk_partitions := Except.ok [],
    disk_usage := fun _ => Except.error "unused",
    process_entries := Except.ok [],
    connect_ok := true,
    net_connections := Except.ok [],
    system_name := "Linux",
    win_services := Except.ok [],
    service_process_entries := Except.ok [],
    path_exists := fun _ => false,
    read_lines := fun _ => Except.error "unused" }

/-- `sampleEnv` with a failing disk-enumeration call. -/
def diskFailEnv : Env :=
  { sampleEnv with disk_partitions := Except.error "device busy" }

/-- The report of the spec test vector: CPU 50, memory 96, one disk at
96 percent, network offline. -/
def c3_report : Report :=
  { Report.empty with
    cpu_percent := some 50,
    memory_percent := some 96,
    disks := some [{ mount := "/", device := "/dev/sda1", total_gb := 100,
                     used_gb := 96, free_gb := 4, percent := 96 }],
    network_online := some false }

/-- A fixed history entry for concrete history inputs. -/
def sample_entry : HistoryEntry :=
  { time := some "2026-01-01T00:00:00", host := some "host1",
    score := some 90, cpu := some 10, memory := some 40,
    disks := some [] }

/-- A second distinguishable history entry. -/
def sample_entry2 : HistoryEntry :=
  { time := some "2026-01-02T00:00:00", host := some "host1",
    score := some 80, cpu := some 20, memory := some 50,
    disks := some [] }

/-! ## Scorer lemmas -/

/-- Every CPU deduction is nonnegative. -/
lemma cpu_deduction_nonneg (c : ℚ) : 0 ≤ cpu_deduction c := by
  unfold cpu_deduction
  split_ifs <;> norm_num

/-- Every memory deduction is nonnegative. -/
lemma mem_deduction_nonneg (m : ℚ) : 0 ≤ mem_deduction m := by
  unfold mem_deduction
  split_ifs <;> norm_num

/-- Every per-disk deduction is nonnegative. -/
lemma disk_deduction_nonneg (d : DiskInfo) : 0 ≤ disk_deduction d := by
  unfold disk_deduction
  split_ifs <;> norm_num

/-- Every network deduction is nonnegative. -/
lemma net_deduction_nonneg (b : Bool) : 0 ≤ net_deduction b := by
  unfold net_deduction
  split_ifs <;> norm_num

/-- The summed disk deductions are nonnegative. -/
lemma disk_sum_nonneg (l : List DiskInfo) :
    0 ≤ (l.map disk_deduction).sum := by
  apply List.sum_nonneg
  intro x hx
  rcases List.mem_map.mp hx with ⟨d, _, rfl⟩
  exact disk_deduction_nonneg d

/-- The total deduction of `analyze` is nonnegative. -/
lemma total_deduction_nonneg (rep : Report) : 0 ≤ total_deduction rep := by
  unfold total_deduction
  have h1 := cpu_deduction_nonneg (rep.cpu_percent.getD 0)
  have h2 := mem_deduction_nonneg (rep.memory_percent.getD 0)
  have h3 := disk_sum_nonneg (rep.disks.getD [])
  have h4 := net_deduction_nonneg (rep.network_online.getD true)
  linarith

/-- The CPU deduction grows with the CPU percent. -/
lemma cpu_deduction_mono {a b : ℚ} (h : a ≤ b) :
    cpu_deduction a ≤ cpu_deduction b := by
  unfold cpu_deduction
  split_ifs <;> linarith

/-- The memory deduction grows with the memory percent. -/
lemma mem_deduction_mono {a b : ℚ} (h : a ≤ b) :
    mem_deduction a ≤ mem_deduction b := by
  unfold mem_deduction
  split_ifs <;> linarith

/-- The per-disk deduction grows with the usage percent. -/
lemma disk_deduction_mono {d d' : DiskInfo} (h : d.percent ≤ d'.percent) :
    disk_deduction d ≤ disk_deduction d' := by
  unfold disk_deduction
  split_ifs <;> linarith

/-- A larger total deduction never yields a larger score. -/
lemma score_val_anti {r r' : Report}
    (h : total_deduction r ≤ total_deduction r') :
    score_val r' ≤ score_val r := by
  unfold score_val
  exact max_le_max (le_refl 0) (by linarith)

/-! ## Claims C5, C7, C8, C3 -/

/-- C5: for every input report, `analyze` stores the score
`max 0 (100 - deductions)`, an integer between 0 and 100: it starts at
100, the deductions are additive, and the clamp keeps the result
nonnegative while the nonnegative deductions keep it at most 100. -/
theorem C5_score_in_range (rep : Report) :
    (analyze rep).score = some (score_val rep) ∧
    0 ≤ score_val rep ∧ score_val rep ≤ 100 := by
  refine ⟨rfl, le_max_left 0 _, ?_⟩
  have h := total_deduction_nonneg rep
  unfold score_val
  apply max_le <;> linarith

/-- C7: the scorer is monotonic: raising the CPU percent, raising the
memory percent, raising one disk percent, adding a disk, or taking
the network offline never raises the score `analyze` assigns. -/
theorem C7_score_monotone :
    (∀ (rep : Report) (c c' : Option ℚ), c.getD 0 ≤ c'.getD 0 →
      score_val { rep with cpu_percent := c' } ≤
        score_val { rep with cpu_percent := c }) ∧
    (∀ (rep : Report) (m m' : Option ℚ), m.getD 0 ≤ m'.getD 0 →
      score_val { rep with memory_percent := m' } ≤
        score_val { rep with memory_percent := m }) ∧
    (∀ (rep : Report) (pre post : List DiskInfo) (d d' : DiskInfo),
      d.percent ≤ d'.percent →
      score_val { rep with disks := some (pre ++ d' :: post) } ≤
        score_val { rep with disks := some (pre ++ d :: post) }) ∧
    (∀ (rep : Report) (ds : List DiskInfo) (d : DiskInfo),
      score_val { rep with disks := some (ds ++ [d]) } ≤
        score_val { rep with disks := some ds }) ∧
    (∀ rep : Report,
      score_val { rep with network_online := some false } ≤
        score_val { rep with network_online := some true }) := by
  refine ⟨?_, ?_, ?_, ?_, ?_⟩
  · intro rep c c' h
    apply score_val_anti
    unfold total_deduction
    dsimp only
    have := cpu_deduction_mono h
    linarith
  · intro rep m m' h
    apply score_val_anti
    unfold total_deduction
    dsimp only
    have := mem_deduction_mono h
    linarith
  · intro rep pre post d d' h
    apply score_val_anti
    unfold total_deduction
    dsimp only [Option.getD_some]
    simp only [List.map_append, List.sum_append, List.map_cons,
      List.sum_cons]
    have := disk_deduction_mono h
    linarith
  · intro rep ds d
    apply score_val_anti
    unfold total_deduction
    dsimp only [Option.getD_some]
    simp only [List.map_append, List.sum_append, List.map_cons,
      List.sum_cons, List.map_nil, List.sum_nil]
    have := disk_deduction_nonneg d
    linarith
  · intro rep
    apply score_val_anti
    unfold total_deduction
    dsimp only [Option.getD_some]
    unfold net_deduction
    norm_num

/-- Witness for C7 at concrete inputs: raising CPU from 50 to 92 on the
empty report does not raise the score, and likewise for the other
signals. -/
theorem C7_witness :
    score_val { Report.empty with cpu_percent := some 92 } ≤
      score_val { Report.empty with cpu_percent := some 50 } ∧
    score_val { Report.empty with network_online := some false } ≤
      score_val { Report.empty with network_online := some true } := by
  constructor
  · exact C7_score_monotone.1 Report.empty (some 50) (some 92) (by norm_num)
  · exact C7_score_monotone.2.2.2.2 Report.empty

/-- C8: an absent signal contributes no deduction and no remediation,
and a report with every signal absent scores 100 with an empty
remediation list. -/
theorem C8_absent_signal_healthy :
    (∀ rep : Report, rep.cpu_percent = none →
      cpu_deduction (rep.cpu_percent.getD 0) = 0 ∧
      cpu_rems (rep.cpu_percent.getD 0) = []) ∧
    (∀ rep : Report, rep.memory_percent = none →
      mem_deduction (rep.memory_percent.getD 0) = 0 ∧
      mem_rems (rep.memory_percent.getD 0) = []) ∧
    (∀ rep : Report, rep.disks = none →
      ((rep.disks.getD []).map disk_deduction).sum = 0 ∧
      ((rep.disks.getD []).map disk_rems).flatten = []) ∧
    (∀ rep : Report, rep.network_online = none →
      net_deduction (rep.network_online.getD true) = 0 ∧
      net_rems (rep.network_online.getD true) = []) ∧
    (∀ rep : Report, rep.cpu_percent = none → rep.memory_percent = none →
      rep.disks = none → rep.network_online = none →
      (analyze rep).score = some 100 ∧
      (analyze rep).remediations = some []) := by
  refine ⟨?_, ?_, ?_, ?_, ?_⟩
  · intro rep h
    rw [h]
    constructor <;> norm_num [cpu_deduction, cpu_rems, Option.getD]
  · intro rep h
    rw [h]
    constructor <;> norm_num [mem_deduction, mem_rems, Option.getD]
  · intro rep h
    rw [h]
    constructor <;> simp [Option.getD]
  · intro rep h
    rw [h]
    constructor <;> norm_num [net_deduction, net_rems, Option.getD]
  · intro rep h1 h2 h3 h4
    constructor
    · show some (score_val rep) = some 100
      unfold score_val total_deduction
      rw [h1, h2, h3, h4]
      norm_num [cpu_deduction, mem_deduction, net_deduction, Option.getD]
    · show some (remediations_of rep) = some []
      unfold remediations_of
      rw [h1, h2, h3, h4]
      norm_num [cpu_rems, mem_rems, net_rems, Option.getD]

/-- Witness for C8 on the all-absent report. -/
theorem C8_witness :
    (analyze Report.empty).score = some 100 ∧
    (analyze Report.empty).remediations = some [] :=
  C8_absent_signal_healthy.2.2.2.2 Report.empty rfl rfl rfl rfl

/-- C3 fails as stated: on CPU 50, memory 96, one disk at 96 percent and
network offline, `analyze` scores 5, not 0 — the deductions are
35 (memory, high tier only) + 35 (disk, high tier only) + 25 (network)
= 95, not 107, so the clamp never fires. -/
theorem C3_counterexample :
    (analyze c3_report).score = some 5 ∧
    (analyze c3_report).score ≠ some 0 := by
  constructor <;> decide

/-- C3 amended: on the same report the score is 5 (deductions sum to 95
and stay above the clamp), and the remediation list holds exactly a
memory entry, a disk entry and a network entry, in that order. -/
theorem C3_amended :
    (analyze c3_report).score = some 5 ∧
    (analyze c3_report).remediations = some
      [{ title := "Low available memory",
         action := "Restart high memory processes or add memory." },
       { title := "Disk / nearly full",
         action := "Clean temp files, rotate logs, or extend volume." },
       { title := "Network offline",
         action := "Check cable/router/Wi-Fi settings." }] := by
  constructor <;> decide

/-! ## Pipeline trace lemmas -/

/-- A successful `scan_partial` always reports the six quick stage
blocks. -/
lemma scanPartial_trace {env : Env} {r : Report} {tr : List Stage}
    (h : scanPartial env = Except.ok (r, tr)) : tr = quick_stage_list := by
  unfold scanPartial at h
  cases hvm : env.virtual_memory_percent with
  | error e =>
    rw [hvm] at h
    exact absurd h (by simp)
  | ok vm =>
    rw [hvm] at h
    simp only [Except.ok.injEq, Prod.mk.injEq] at h
    exact h.2.symm

/-- A successful `scan_full` always reports the six quick stage blocks
followed by the three deep ones. -/
lemma scan_full_trace {env : Env} {r : Report} {tr : List Stage}
    (h : scan_full env = Except.ok (r, tr)) :
    tr = quick_stage_list ++ deep_extra_stages := by
  unfold scan_full at h
  cases hp : scanPartial env with
  | error e =>
    rw [hp] at h
    exact absurd h (by simp)
  | ok pr =>
    obtain ⟨rep, trace⟩ := pr
    rw [hp] at h
    simp only [Except.ok.injEq, Prod.mk.injEq] at h
    rw [← h.2, scanPartial_trace hp]

/-! ## Claims C1, C2, C9 -/

/-- C1: a `start-scan` request that arrives while the state is running
returns the busy response, spawns no scan worker, and leaves the
in-flight mode and start time (indeed the whole state) untouched, for
every in-flight state. -/
theorem C1_busy_rejection (st : ScanState) (req_mode : Option String)
    (h : st.running = true) :
    (start_scan st req_mode).response = StartResponse.busy ∧
    (start_scan st req_mode).state = st ∧
    (start_scan st req_mode).state.mode = st.mode ∧
    (start_scan st req_mode).state.start_time = st.start_time ∧
    (start_scan st req_mode).spawned = none := by
  unfold start_scan
  rw [h]
  exact ⟨rfl, rfl, rfl, rfl, rfl⟩

/-- Witness for C1 at a concrete in-flight state. -/
theorem C1_witness :
    (start_scan (running_state "full" "t0") (some "quick")).response
        = StartResponse.busy ∧
    (start_scan (running_state "full" "t0") (some "quick")).state
        = running_state "full" "t0" ∧
    (start_scan (running_state "full" "t0") (some "quick")).state.mode
        = (running_state "full" "t0").mode ∧
    (start_scan (running_state "full" "t0") (some "quick")).state.start_time
        = (running_state "full" "t0").start_time ∧
    (start_scan (running_state "full" "t0") (some "quick")).spawned
        = none :=
  C1_busy_rejection (running_state "full" "t0") (some "quick") rfl

/-- C2 fails as stated: a request with mode `quick` does not run the six
quick stages — the dispatch compares against the string `partial`, so
mode `quick` falls into the else branch and executes all nine stages,
deep ones included. -/
theorem C2_counterexample :
    (scanFor "quick" sampleEnv).map Prod.snd
        = Except.ok (quick_stage_list ++ deep_extra_stages) ∧
    quick_stage_list ++ deep_extra_stages ≠ quick_stage_list := by
  exact ⟨rfl, by decide⟩

/-- C2 amended: only the mode string `partial` selects the quick
pipeline, which executes exactly the six quick stage blocks (basic
identity, CPU sample, memory, disks, top processes, network probe, in
that order); every other mode string — the default `full` included —
executes the nine-stage deep pipeline, a strict superset that never
skips a quick stage; and the started response echoes the requested
mode string. -/
theorem C2_stage_sets (env : Env) (m : String) (st : ScanState)
    (hm : m ≠ "partial") (hs : st.running = false) :
    scanFor "partial" env = scanPartial env ∧
    scanFor m env = scan_full env ∧
    (∀ r tr, scanPartial env = Except.ok (r, tr) →
      tr = quick_stage_list) ∧
    (∀ r tr, scan_full env = Except.ok (r, tr) →
      tr = quick_stage_list ++ deep_extra_stages) ∧
    List.Sublist quick_stage_list (quick_stage_list ++ deep_extra_stages) ∧
    quick_stage_list ≠ quick_stage_list ++ deep_extra_stages ∧
    (start_scan st (some m)).response = StartResponse.started m ∧
    (start_scan st (some "partial")).response
        = StartResponse.started "partial" := by
  refine ⟨rfl, ?_, ?_, ?_, ?_, by decide, ?_, ?_⟩
  · unfold scanFor
    rw [if_neg hm]
  · intro r tr h
    exact scanPartial_trace h
  · intro r tr h
    exact scan_full_trace h
  · exact List.sublist_append_left _ _
  · unfold start_scan
    rw [hs]
    rfl
  · unfold start_scan
    rw [hs]
    rfl

/-- Witness for C2 at concrete inputs: mode `full` on the sample
environment runs the deep pipeline and is acknowledged with mode
`full`. -/
theorem C2_witness :
    scanFor "full" sampleEnv = scan_full sampleEnv ∧
    (start_scan idle_state (some "full")).response
        = StartResponse.started "full" := by
  have h := C2_stage_sets sampleEnv "full" idle_state (by decide) rfl
  exact ⟨h.2.1, h.2.2.2.2.2.2.1⟩

/-- C9: a request without a mode field defaults to `full`, any mode
other than `partial` dispatches to the full (deep) pipeline, and the
started response echoes the received mode string unvalidated. -/
theorem C9_default_full (st : ScanState) (env : Env) (m : String)
    (hs : st.running = false) (hm : m ≠ "partial") :
    (start_scan st none).response = StartResponse.started "full" ∧
    (start_scan st none).spawned = some "full" ∧
    (start_scan st (some m)).response = StartResponse.started m ∧
    (start_scan st (some m)).spawned = some m ∧
    scanFor m env = scan_full env ∧
    scanFor "full" env = scan_full env := by
  unfold start_scan
  rw [hs]
  refine ⟨rfl, rfl, rfl, rfl, ?_, ?_⟩
  · unfold scanFor
    rw [if_neg hm]
  · unfold scanFor
    rw [if_neg (by decide : ¬ ("full" : String) = "partial")]

/-- Witness for C9 at concrete inputs: from idle, an omitted mode spawns
a `full` worker and mode `quick` (not being `partial`) runs the deep
pipeline. -/
theorem C9_witness :
    (start_scan idle_state none).response = StartResponse.started "full" ∧
    (start_scan idle_state none).spawned = some "full" ∧
    (start_scan idle_state (some "quick")).response
        = StartResponse.started "quick" ∧
    (start_scan idle_state (some "quick")).spawned = some "quick" ∧
    scanFor "quick" sampleEnv = scan_full sampleEnv ∧
    scanFor "full" sampleEnv = scan_full sampleEnv :=
  C9_default_full idle_state sampleEnv "quick" rfl (by decide)

/-! ## Claims C4, C6, C10 -/

/-- A failing `disk_partitions` call leaves the disks list empty. -/
lemma disks_of_error {env : Env} {e : String}
    (hd : env.disk_partitions = Except.error e) : disks_of env = [] := by
  unfold disks_of
  rw [hd]

/-- C4: when the disk-enumeration call raises (and the unwrapped
virtual-memory call answers, as in the claim's scenario where only disk
enumeration fails), `scan_partial` still returns a report rather than
raising: `disks` is the empty list and every other stage's field carries
its usual value, score and remediations included. -/
theorem C4_disk_failure_degrades (env : Env) (e : String) (m : ℚ)
    (hd : env.disk_partitions = Except.error e)
    (hm : env.virtual_memory_percent = Except.ok m) :
    ∃ rep : Report,
      scanPartial env = Except.ok (rep, quick_stage_list) ∧
      rep.disks = some [] ∧
      rep.host = some env.gethostname ∧
      rep.platform = some env.platform_string ∧
      rep.timestamp = some env.now_iso ∧
      rep.ip = (gather_basic env).ip ∧
      rep.cpu_percent = quick_cpu_sample env ∧
      rep.memory_percent = some m ∧
      rep.top_processes = some (top_processes_of env) ∧
      rep.network_online = some env.connect_ok ∧
      rep.score.isSome = true ∧
      rep.remediations.isSome = true := by
  have hdisks : disks_of env = [] := disks_of_error hd
  unfold scanPartial
  rw [hm, hdisks]
  exact ⟨_, rfl, rfl, rfl, rfl, rfl, rfl, rfl, rfl, rfl, rfl, rfl, rfl⟩

/-- Witness for C4 on a concrete environment whose disk enumeration
raises. -/
theorem C4_witness :
    ∃ rep : Report,
      scanPartial diskFailEnv = Except.ok (rep, quick_stage_list) ∧
      rep.disks = some [] ∧
      rep.host = some diskFailEnv.gethostname ∧
      rep.platform = some diskFailEnv.platform_string ∧
      rep.timestamp = some diskFailEnv.now_iso ∧
      rep.ip = (gather_basic diskFailEnv).ip ∧
      rep.cpu_percent = quick_cpu_sample diskFailEnv ∧
      rep.memory_percent = some 40 ∧
      rep.top_processes = some (top_processes_of diskFailEnv) ∧
      rep.network_online = some diskFailEnv.connect_ok ∧
      rep.score.isSome = true ∧
      rep.remediations.isSome = true :=
  C4_disk_failure_degrades diskFailEnv "device busy" 40 rfl rfl

/-- C6: after an append the history never exceeds 8 entries, and
appending to a full 8-entry history drops exactly the oldest entry
(completion order is kept). -/
theorem C6_history_bound (h : List HistoryEntry) (e : HistoryEntry) :
    (append_history h e).length ≤ 8 ∧
    (h.length = 8 → append_history h e = h.drop 1 ++ [e]) := by
  constructor
  · unfold append_history
    dsimp only
    split_ifs with hl
    · rw [List.length_drop]
      omega
    · omega
  · intro h8
    unfold append_history
    dsimp only
    rw [if_pos (by simp [h8])]
    have hlen : (h ++ [e]).length - 8 = 1 := by simp [h8]
    rw [hlen]
    exact List.drop_append_of_le_length (by omega)

/-- Witness for C6: appending a 9th entry to a full 8-entry history
evicts the oldest entry. -/
theorem C6_witness :
    (append_history (List.replicate 8 sample_entry) sample_entry2).length
        ≤ 8 ∧
    append_history (List.replicate 8 sample_entry) sample_entry2
        = (List.replicate 8 sample_entry).drop 1 ++ [sample_entry2] := by
  have h := C6_history_bound (List.replicate 8 sample_entry) sample_entry2
  exact ⟨h.1, h.2 (by simp)⟩

/-- C10: with no readable latest report and a non-empty history, the
data route answers the fallback built from the newest history entry,
with `network_online` hardcoded to true and `remediations` hardcoded to
empty no matter what the scan recorded; with no history either, it
answers the empty object. -/
theorem C10_fallback_shape (hist : List HistoryEntry)
    (last : HistoryEntry) (h : hist.getLast? = some last) :
    data_route none hist = DataResponse.fallback
      { host := last.host, timestamp := last.time, score := last.score,
        cpu_percent := last.cpu, memory_percent := last.memory,
        disks := last.disks, network_online := true,
        remediations := [] } ∧
    data_route none [] = DataResponse.empty := by
  constructor
  · unfold data_route
    rw [h]
  · rfl

/-- Witness for C10 on a one-entry history whose scan recorded a score
of 90: the fallback still says online with no remediations. -/
theorem C10_witness :
    data_route none [sample_entry] = DataResponse.fallback
      { host := sample_entry.host, timestamp := sample_entry.time,
        score := sample_entry.score, cpu_percent := sample_entry.cpu,
        memory_percent := sample_entry.memory,
        disks := sample_entry.disks, network_online := true,
        remediations := [] } ∧
    data_route none [] = DataResponse.empty :=
  C10_fallback_shape [sample_entry] sample_entry rfl

end HealthCheck
